import Mathlib

/-!
Verification of the controllable state engine (Toggle) of this repository.

The embedding covers three source artifacts:
. the state-reducer Toggle (internalSetState / reset / toggle / getTogglerProps
  together with the callAll handler composer);
. the typed variant of the same engine from the repository documentation, whose
  internalSetState strips the type tag from the reduced changes;
. the control-props Toggle (isControlled / getState / toggle) of exercise 10.

JavaScript values are modelled by an inductive type with an explicit undefined,
JavaScript objects by association lists with first-match lookup (indexing an
absent key yields undefined, and an object spread lets the later bag win).
React setState is modelled by a shallow merge, with a null updater result
meaning that no commit happens.  Event handlers are modelled as state
transformers that may throw, so that sequencing and fail-fast propagation of
exceptions are visible in the model.
-/

/-- JavaScript values as far as the engine manipulates them: undefined, booleans,
strings and numbers. -/
inductive JsVal where
  | undef : JsVal
  | bool : Bool → JsVal
  | str : String → JsVal
  | num : Int → JsVal
deriving DecidableEq

/-- JavaScript truthiness of a value. -/
def jsTruthy : JsVal → Bool
  | JsVal.undef => false
  | JsVal.bool b => b
  | JsVal.str s => !s.isEmpty
  | JsVal.num n => n != 0

/-- JavaScript logical negation, as used in the change function of toggle. -/
def jsNot (v : JsVal) : Bool := !jsTruthy v

/-- A JavaScript object: an association list from keys to values.  Lookup takes
the first matching entry. -/
abbrev Obj : Type := List (String × JsVal)

/-- Lookup of a key in an object; none when the key is absent. -/
def objLookup : Obj → String → Option JsVal
  | [], _ => none
  | (k2, v) :: rest, k => if k2 = k then some v else objLookup rest k

/-- JavaScript indexing: reading an absent key yields undefined. -/
def jsIndex (o : Obj) (k : String) : JsVal := (objLookup o k).getD JsVal.undef

/-- Shallow merge of an update into a base object, as performed by React
setState and by object spread: keys of the update win. -/
def objMerge (base upd : Obj) : Obj := upd ++ base

/-- Removal of one key from an object, as performed by rest destructuring. -/
def objRemove : Obj → String → Obj
  | [], _ => []
  | (k2, v) :: rest, k => if k2 = k then objRemove rest k else (k2, v) :: objRemove rest k

/-- A change request handed to internalSetState: either a literal object of
changes, or a function from the current state bag to such an object. -/
inductive ChangeReq where
  | lit : Obj → ChangeReq
  | fn : (Obj → Obj) → ChangeReq

/-- Resolution of a change request against the current state bag, mirroring the
typeof test in internalSetState: a function is invoked with the current state,
a literal is used directly. -/
def resolveChange : ChangeReq → Obj → Obj
  | ChangeReq.lit o, _ => o
  | ChangeReq.fn f, s => f s

/-- An event handler: takes the event arguments and the ambient world, and
either returns the new world or throws. -/
def Handler (α σ ε : Type) : Type := α → σ → Except ε σ

/-- The callAll combinator of the source: given a list of possibly absent
handlers, produce one handler that invokes each present handler in order with
the same arguments, skipping absent ones; a throw aborts the rest. -/
def callAll {α σ ε : Type} : List (Option (Handler α σ ε)) → Handler α σ ε
  | [], _, s => Except.ok s
  | none :: rest, args, s => callAll rest args s
  | some f :: rest, args, s =>
      match f args s with
      | Except.error e => Except.error e
      | Except.ok s2 => callAll rest args s2

/-- Sequential run of a list of handlers: each handler exactly once, in order,
with the same arguments, threading the world. -/
def runHandlers {α σ ε : Type} : List (Handler α σ ε) → Handler α σ ε
  | [], _, s => Except.ok s
  | f :: rest, args, s =>
      match f args s with
      | Except.error e => Except.error e
      | Except.ok s2 => runHandlers rest args s2

/-- A handler that only records its own index and the arguments it received. -/
def logHandler {α ε : Type} (i : Nat) : Handler α (List (Nat × α)) ε :=
  fun a l => Except.ok (l ++ [(i, a)])

/-- Props of the state-reducer Toggle, before defaultProps are applied.  The
static defaultProps of the source supply initialOn, onReset and stateReducer,
and supply no default for onToggle.  Handler slots are modelled by presence
markers; the values the engine passes them are reported in operation results. -/
structure ToggleProps where
  initialOn : Option Bool := none
  onToggle : Option Unit := none
  onReset : Option Unit := none
  stateReducer : Option (Obj → Obj → Option Obj) := none

/-- Effective initialOn after defaultProps: false when omitted. -/
def defaultedInitialOn (p : ToggleProps) : Bool := p.initialOn.getD false

/-- Effective stateReducer after defaultProps: the identity reducer returning
the changes unmodified when omitted.  A reducer returning none models a
JavaScript reducer returning null or undefined. -/
def defaultedReducer (p : ToggleProps) : Obj → Obj → Option Obj :=
  p.stateReducer.getD (fun _ changes => some changes)

/-- The initial state bag captured at construction from the props. -/
def initialStateBag (p : ToggleProps) : Obj :=
  [("on", JsVal.bool (defaultedInitialOn p))]

/-- The value internalSetState hands to the React setState updater, mirroring
the map chain of the source: resolve the change request, pass it with the
current state to the state reducer (a falsy result degrades to the empty
object), and return null when the result has no keys. -/
def internalSetState (p : ToggleProps) (changes : ChangeReq) (s : Obj) : Option Obj :=
  let step1 := [changes].map (fun c => resolveChange c s)
  let step2 := step1.map (fun c => (defaultedReducer p s c).getD [])
  let step3 := step2.map (fun c => if 0 < c.length then some c else none)
  step3.getD 0 none

/-- The state bag after internalSetState: a returned object is shallow merged
into the current state, a null return leaves the state untouched. -/
def commitState (p : ToggleProps) (changes : ChangeReq) (s : Obj) : Obj :=
  match internalSetState p changes s with
  | some r => objMerge s r
  | none => s

/-- Whether internalSetState committed anything (whether the updater returned
an object rather than null, which is what triggers a re-render). -/
def didCommit (p : ToggleProps) (changes : ChangeReq) (s : Obj) : Bool :=
  (internalSetState p changes s).isSome

/-- The change request generated by toggle: a function negating the on key of
the current state bag. -/
def toggleChanges : ChangeReq :=
  ChangeReq.fn (fun bag => [("on", JsVal.bool (jsNot (jsIndex bag "on")))])

/-- The error message raised when a props slot holding no function is called. -/
def jsTypeError : String := "TypeError: handler is not a function"

/-- Invocation of a possibly absent consumer handler with one value: an absent
handler crashes, a present one is recorded with the value it received. -/
def invokeHandler (h : Option Unit) (v : JsVal) : Except String (List JsVal) :=
  match h with
  | none => Except.error jsTypeError
  | some _ => Except.ok [v]

/-- The toggle operation of the state-reducer Toggle: run internalSetState on
the toggle change request, then invoke props.onToggle with the post-commit on
value.  The source supplies no default for onToggle, so the slot may be
absent. -/
def toggleOp (p : ToggleProps) (s : Obj) : Obj × Except String (List JsVal) :=
  let s2 := commitState p toggleChanges s
  (s2, invokeHandler p.onToggle (jsIndex s2 "on"))

/-- Values delivered to the consumer by the reset callback: defaultProps fill
an omitted onReset with a no-op, so an omitted handler receives nothing but
the call is safe. -/
def resetNotifications (p : ToggleProps) (v : JsVal) : List JsVal :=
  match p.onReset with
  | some _ => [v]
  | none => []

/-- The reset operation: internalSetState on the construction-time initial
state, then the onReset callback with the post-commit on value.  Because
defaultProps supply a no-op onReset, the callback step never crashes. -/
def resetOp (p : ToggleProps) (s : Obj) : Obj × Except String (List JsVal) :=
  let s2 := commitState p (ChangeReq.lit (initialStateBag p)) s
  (s2, Except.ok (resetNotifications p (jsIndex s2 "on")))

/-- The state bag after reset. -/
def resetState (p : ToggleProps) (s : Obj) : Obj := (resetOp p s).1

/-- The caller override bundle accepted by getTogglerProps, after the
destructuring of the source: the onClick slot and the rest of the bundle. -/
structure TogglerOverrides (α σ ε : Type) where
  onClick : Option (Handler α σ ε) := none
  rest : Obj := []

/-- The bundle returned by getTogglerProps: a composed onClick handler and the
remaining attributes. -/
structure TogglerProps (α σ ε : Type) where
  onClick : Handler α σ ε
  attrs : Obj

/-- getTogglerProps of the source: compose the caller onClick with the engine
toggle through callAll, expose aria-pressed from the current on state, and
spread the remaining caller attributes last so that they win. -/
def getTogglerProps {α σ ε : Type} (onState : Bool) (toggleH : Handler α σ ε)
    (ov : TogglerOverrides α σ ε) : TogglerProps α σ ε :=
  { onClick := callAll [ov.onClick, some toggleH]
    attrs := objMerge [("aria-pressed", JsVal.bool onState)] ov.rest }

/-!
The typed variant of the engine, from the repository documentation: change
requests carry a type tag, internalSetState strips the tag from the reduced
changes before committing, and toggle and reset attach stable default tags.
-/

/-- Props of the typed variant relevant to its reducer pipeline. -/
structure TypedToggleProps where
  initialOn : Option Bool := none
  stateReducer : Option (Obj → Obj → Option Obj) := none

/-- Effective initialOn of the typed variant after defaultProps. -/
def typedInitialOn (p : TypedToggleProps) : Bool := p.initialOn.getD false

/-- Effective stateReducer of the typed variant after defaultProps. -/
def typedReducer (p : TypedToggleProps) : Obj → Obj → Option Obj :=
  p.stateReducer.getD (fun _ changes => some changes)

/-- The initial state bag of the typed variant. -/
def typedInitialStateBag (p : TypedToggleProps) : Obj :=
  [("on", JsVal.bool (typedInitialOn p))]

/-- The stable tag attached by the typed toggle: stateChangeTypes.toggle. -/
def stateChangeTypeToggle : JsVal := JsVal.str "toggle"

/-- The stable tag attached by the typed reset: stateChangeTypes.reset. -/
def stateChangeTypeReset : JsVal := JsVal.str "reset"

/-- The setState updater value of the typed internalSetState: resolve the
change request, reduce it (a falsy reducer result degrades to the empty
object), strip the type key from the reduced changes by rest destructuring,
and return null when nothing remains. -/
def internalSetStateTyped (p : TypedToggleProps) (changes : ChangeReq) (s : Obj) :
    Option Obj :=
  let changesObject := resolveChange changes s
  let reducedChanges := (typedReducer p s changesObject).getD []
  let remainingChanges := objRemove reducedChanges "type"
  if 0 < remainingChanges.length then some remainingChanges else none

/-- The state bag after the typed internalSetState. -/
def typedCommitState (p : TypedToggleProps) (changes : ChangeReq) (s : Obj) : Obj :=
  match internalSetStateTyped p changes s with
  | some r => objMerge s r
  | none => s

/-- The change request generated by the typed toggle: negate the on key and
append the type tag, defaulting the tag to stateChangeTypes.toggle when the
caller supplies none. -/
def typedToggleChanges (ty : Option JsVal) : ChangeReq :=
  ChangeReq.fn (fun bag =>
    [("on", JsVal.bool (jsNot (jsIndex bag "on"))),
     ("type", ty.getD stateChangeTypeToggle)])

/-- The change request generated by the typed reset: the construction-time
initial state with the type tag stateChangeTypes.reset spread in. -/
def typedResetChanges (p : TypedToggleProps) : ChangeReq :=
  ChangeReq.lit
    [("on", JsVal.bool (typedInitialOn p)), ("type", stateChangeTypeReset)]

/-- The object part of getStateAndHelpers in the typed variant: it exposes the
on value of the state bag (the remaining fields are the helper functions). -/
def typedHelpersObj (s : Obj) : Obj := [("on", jsIndex s "on")]

/-!
The control-props Toggle of exercise 10: a key is controlled exactly when the
consumer-supplied prop for it is not undefined; reads go through getState;
toggle in controlled mode only notifies the owner, in uncontrolled mode it
commits the negation and then notifies with the post-commit resolved value.
-/

/-- Props of the control-props Toggle: the prop bag indexed by key for the
externally supplied state values, plus the onToggle handler slot (which has no
default in this exercise). -/
structure ControlProps where
  stateProps : Obj := []
  onToggle : Option Unit := none

/-- isControlled of the source: the prop for the key is not undefined.  A key
that is absent and a key explicitly set to undefined both index to undefined. -/
def isControlled (p : ControlProps) (prop : String) : Bool :=
  match jsIndex p.stateProps prop with
  | JsVal.undef => false
  | _ => true

/-- getState of the source: a controlled key reads the external prop value, an
uncontrolled key reads the internal state bag. -/
def getState (p : ControlProps) (s : Obj) (prop : String) : JsVal :=
  if isControlled p prop then jsIndex p.stateProps prop else jsIndex s prop

/-- toggle of the control-props Toggle: when on is controlled, invoke onToggle
with the negation of the resolved value and leave the internal bag untouched;
otherwise commit the negation of the internal on and invoke onToggle with the
post-commit resolved value. -/
def toggleControl (p : ControlProps) (s : Obj) : Obj × Except String (List JsVal) :=
  if isControlled p "on" then
    (s, invokeHandler p.onToggle (JsVal.bool (jsNot (getState p s "on"))))
  else
    let s2 := objMerge s [("on", JsVal.bool (jsNot (jsIndex s "on")))]
    (s2, invokeHandler p.onToggle (getState p s2 "on"))

/-!
Helper lemmas about object lookup, key removal and handler composition.
-/

theorem objLookup_append_some (l1 l2 : Obj) (k : String) (v : JsVal)
    (h : objLookup l1 k = some v) : objLookup (l1 ++ l2) k = some v := by
  induction l1 with
  | nil => simp [objLookup] at h
  | cons a rest ih =>
    obtain ⟨k2, v2⟩ := a
    by_cases hk : k2 = k
    · simp [objLookup, hk] at h ⊢
      exact h
    · simp [objLookup, hk] at h ⊢
      exact ih h

theorem objLookup_append_none (l1 l2 : Obj) (k : String)
    (h : objLookup l1 k = none) : objLookup (l1 ++ l2) k = objLookup l2 k := by
  induction l1 with
  | nil => simp
  | cons a rest ih =>
    obtain ⟨k2, v2⟩ := a
    by_cases hk : k2 = k
    · simp [objLookup, hk] at h
    · simp [objLookup, hk] at h ⊢
      exact ih h

theorem objRemove_lookup_self (o : Obj) (k : String) :
    objLookup (objRemove o k) k = none := by
  induction o with
  | nil => simp [objRemove, objLookup]
  | cons a rest ih =>
    obtain ⟨k2, v2⟩ := a
    by_cases hk : k2 = k
    · simp [objRemove, hk, ih]
    · simp [objRemove, objLookup, hk, ih]

theorem callAll_cons_some {α σ ε : Type} (f : Handler α σ ε)
    (rest : List (Option (Handler α σ ε))) (args : α) (s : σ) :
    callAll (some f :: rest) args s
      = (f args s).bind (fun s2 => callAll rest args s2) := by
  cases h : f args s <;> simp [callAll, h, Except.bind]

theorem callAll_single {α σ ε : Type} (g : Handler α σ ε) (args : α) (s : σ) :
    callAll [some g] args s = g args s := by
  cases h : g args s <;> simp [callAll, h]

theorem callAll_eq_runHandlers {α σ ε : Type}
    (fns : List (Option (Handler α σ ε))) (args : α) (s : σ) :
    callAll fns args s = runHandlers (fns.filterMap id) args s := by
  induction fns generalizing s with
  | nil => rfl
  | cons hd rest ih =>
    cases hd with
    | none => simpa [callAll, List.filterMap_cons] using ih s
    | some f =>
      simp only [List.filterMap_cons, id]
      cases h : f args s <;> simp [callAll, runHandlers, h, ih]

theorem internalSetState_eq (p : ToggleProps) (ch : ChangeReq) (s : Obj) :
    internalSetState p ch s
      = (fun r => if 0 < (r.getD ([] : Obj)).length
           then some (r.getD ([] : Obj)) else none)
          (defaultedReducer p s (resolveChange ch s)) := rfl

/-!
Claim theorems.
-/

/-- C1: internalSetState resolves a function request by invoking it with the
current state bag (a literal is used directly), feeds exactly that resolved
mapping together with the current state through the state reducer once (the
outcome is a function of that single reducer application), and when the
reducer returns no mapping or an empty mapping the state bag is left
completely unchanged and no commit occurs. -/
theorem internalSetState_correct (p : ToggleProps) (ch : ChangeReq) (s o : Obj)
    (f : Obj → Obj) :
    resolveChange (ChangeReq.fn f) s = f s
    ∧ resolveChange (ChangeReq.lit o) s = o
    ∧ internalSetState p ch s
        = (fun r => if 0 < (r.getD ([] : Obj)).length
             then some (r.getD ([] : Obj)) else none)
            (defaultedReducer p s (resolveChange ch s))
    ∧ (defaultedReducer p s (resolveChange ch s) = none →
         commitState p ch s = s ∧ didCommit p ch s = false)
    ∧ (defaultedReducer p s (resolveChange ch s) = some [] →
         commitState p ch s = s ∧ didCommit p ch s = false)
  := by
  refine ⟨rfl, rfl, internalSetState_eq p ch s, ?_, ?_⟩
  · intro h
    have hu : internalSetState p ch s = none := by
      rw [internalSetState_eq, h]
      simp
    constructor
    · simp [commitState, hu]
    · simp [didCommit, hu]
  · intro h
    have hu : internalSetState p ch s = none := by
      rw [internalSetState_eq, h]
      simp
    constructor
    · simp [commitState, hu]
    · simp [didCommit, hu]

/-- C1 witness: with a reducer that returns the empty mapping, a concrete
propose leaves the concrete state bag unchanged and commits nothing. -/
theorem internalSetState_correct_witness :
    commitState { stateReducer := some (fun _ _ => some []) }
        (ChangeReq.lit [("on", JsVal.bool true)]) [("on", JsVal.bool false)]
      = [("on", JsVal.bool false)]
    ∧ didCommit { stateReducer := some (fun _ _ => some []) }
        (ChangeReq.lit [("on", JsVal.bool true)]) [("on", JsVal.bool false)]
      = false :=
  (internalSetState_correct { stateReducer := some (fun _ _ => some []) }
    (ChangeReq.lit [("on", JsVal.bool true)]) [("on", JsVal.bool false)]
    [] id).2.2.2.2 rfl

/-- C6: the handler composed by callAll invokes each present input handler
exactly once, in the order supplied, forwarding identical arguments to each
(it runs exactly the present handlers in sequence), silently skips absent
handlers, and a throw in one handler propagates to the caller and aborts the
remaining handlers. -/
theorem callAll_correct {α σ ε : Type} (fns : List (Option (Handler α σ ε)))
    (f : Handler α σ ε) (args : α) (s : σ) (e : ε) :
    callAll fns args s = runHandlers (fns.filterMap id) args s
    ∧ callAll (none :: fns) args s = callAll fns args s
    ∧ callAll (some f :: fns) args s
        = (f args s).bind (fun s2 => callAll fns args s2)
    ∧ callAll (some (fun _ _ => Except.error e) :: fns) args s = Except.error e
    ∧ (∀ (a : α), @callAll α (List (Nat × α)) ε
        [some (@logHandler α ε 1), none, some (@logHandler α ε 2)] a []
        = Except.ok [(1, a), (2, a)]) := by
  refine ⟨callAll_eq_runHandlers fns args s, rfl, callAll_cons_some f fns args s,
    rfl, ?_⟩
  intro a
  simp [callAll, logHandler]

/-- C7: getTogglerProps lets every non-handler attribute of the caller
override bundle win unchanged in the result, while a caller-supplied onClick
is composed with the engine toggle handler rather than overwritten: invoking
the resulting onClick runs the caller handler and then the engine handler,
each once, with identical arguments; with no caller onClick the engine
handler runs alone. -/
theorem getTogglerProps_correct {α σ ε : Type} (onState : Bool)
    (toggleH : Handler α σ ε) (ov : TogglerOverrides α σ ε) (k : String)
    (v : JsVal) (f : Handler α σ ε) (args : α) (s : σ) :
    (objLookup ov.rest k = some v →
       objLookup (getTogglerProps onState toggleH ov).attrs k = some v)
    ∧ (ov.onClick = some f →
       (getTogglerProps onState toggleH ov).onClick args s
         = (f args s).bind (fun s2 => toggleH args s2))
    ∧ (ov.onClick = none →
       (getTogglerProps onState toggleH ov).onClick args s
         = toggleH args s) := by
  refine ⟨?_, ?_, ?_⟩
  · intro h
    simp only [getTogglerProps, objMerge]
    exact objLookup_append_some _ _ _ _ h
  · intro h
    simp only [getTogglerProps, h]
    rw [callAll_cons_some]
    have he : (fun s2 => callAll [some toggleH] args s2)
        = fun s2 => toggleH args s2 :=
      funext fun s2 => callAll_single toggleH args s2
    rw [he]
  · intro h
    simp only [getTogglerProps, h]
    exact callAll_single toggleH args s

/-- C7 witness: at a concrete override bundle the id attribute survives
unchanged, a composed onClick runs the caller handler then the toggle handler
once each, and with no caller onClick the toggle handler runs alone. -/
theorem getTogglerProps_correct_witness :
    objLookup (getTogglerProps false (fun (_ : Unit) (n : Nat) => Except.ok (n + 1))
        { onClick := some (fun _ n => Except.ok (n * 10)),
          rest := [("id", JsVal.str "x")] } : TogglerProps Unit Nat Unit).attrs "id"
      = some (JsVal.str "x")
    ∧ (getTogglerProps false (fun (_ : Unit) (n : Nat) => Except.ok (n + 1))
        { onClick := some (fun _ n => Except.ok (n * 10)),
          rest := [("id", JsVal.str "x")] } : TogglerProps Unit Nat Unit).onClick () 3
      = Except.ok 31
    ∧ (getTogglerProps false (fun (_ : Unit) (n : Nat) => Except.ok (n + 1))
        { onClick := none, rest := [] } : TogglerProps Unit Nat Unit).onClick () 3
      = Except.ok 4 :=
  ⟨(getTogglerProps_correct false (fun _ n => Except.ok (n + 1))
      { onClick := some (fun _ n => Except.ok (n * 10)),
        rest := [("id", JsVal.str "x")] } "id" (JsVal.str "x")
      (fun _ n => Except.ok (n * 10)) () 3).1 rfl,
   ((getTogglerProps_correct false (fun _ n => Except.ok (n + 1))
      { onClick := some (fun _ n => Except.ok (n * 10)),
        rest := [("id", JsVal.str "x")] } "id" (JsVal.str "x")
      (fun _ n => Except.ok (n * 10)) () 3).2.1 rfl).trans rfl,
   ((getTogglerProps_correct false (fun _ n => Except.ok (n + 1))
      { onClick := none, rest := [] } "id" (JsVal.str "x")
      (fun _ n => Except.ok (n * 10)) () 3).2.2 rfl).trans rfl⟩

/-- C2: in the typed variant the type tag of a change request is visible to
the state reducer (the pipeline applies the reducer to the unstripped resolved
change and its outcome is a function of that single application), yet the type
key is stripped before commit, so it never appears in a committed state bag
that lacked it, nor in the state part of getStateAndHelpers. -/
theorem typed_tag_isolation (p : TypedToggleProps) (ch : ChangeReq) (s : Obj) :
    internalSetStateTyped p ch s
      = (fun r => if 0 < (objRemove (r.getD ([] : Obj)) "type").length
           then some (objRemove (r.getD ([] : Obj)) "type") else none)
          (typedReducer p s (resolveChange ch s))
    ∧ (objLookup s "type" = none →
        objLookup (typedCommitState p ch s) "type" = none)
    ∧ objLookup (typedHelpersObj (typedCommitState p ch s)) "type" = none := by
  have hot : ("on" : String) ≠ "type" := by decide
  refine ⟨rfl, ?_, ?_⟩
  · intro h
    unfold typedCommitState
    cases hu : internalSetStateTyped p ch s with
    | none => exact h
    | some r =>
      have hr : objLookup r "type" = none := by
        simp only [internalSetStateTyped] at hu
        split at hu
        · injection hu with h2
          rw [← h2]
          exact objRemove_lookup_self _ _
        · cases hu
      show objLookup (objMerge s r) "type" = none
      unfold objMerge
      rw [objLookup_append_none r s _ hr]
      exact h
  · simp [typedHelpersObj, objLookup, hot]

/-- C2 witness: a concrete request carrying a type tag commits, and the
committed bag holds no type key. -/
theorem typed_tag_isolation_witness :
    objLookup (typedCommitState {}
        (ChangeReq.lit [("on", JsVal.bool true), ("type", JsVal.str "x")])
        [("on", JsVal.bool false)]) "type" = none :=
  (typed_tag_isolation {}
    (ChangeReq.lit [("on", JsVal.bool true), ("type", JsVal.str "x")])
    [("on", JsVal.bool false)]).2.1 (by decide)

/-- C8: the change requests generated by the typed toggle and reset carry a
stable default type tag (stateChangeTypes.toggle and stateChangeTypes.reset)
when the caller supplies none, a caller-supplied tag is kept, the tag is
present on every internally originated resolved change, and the reducer in
internalSetStateTyped is applied to exactly that tagged resolved change. -/
theorem typed_default_tags (p : TypedToggleProps) (s : Obj) (t : JsVal)
    (ty : Option JsVal) :
    objLookup (resolveChange (typedToggleChanges none) s) "type"
      = some stateChangeTypeToggle
    ∧ objLookup (resolveChange (typedToggleChanges (some t)) s) "type" = some t
    ∧ objLookup (resolveChange (typedResetChanges p) s) "type"
      = some stateChangeTypeReset
    ∧ (objLookup (resolveChange (typedToggleChanges ty) s) "type").isSome = true
    ∧ internalSetStateTyped p (typedToggleChanges ty) s
        = (fun r => if 0 < (objRemove (r.getD ([] : Obj)) "type").length
             then some (objRemove (r.getD ([] : Obj)) "type") else none)
            (typedReducer p s (resolveChange (typedToggleChanges ty) s)) := by
  have hot : ("on" : String) ≠ "type" := by decide
  refine ⟨?_, ?_, ?_, ?_, rfl⟩
  · simp [typedToggleChanges, resolveChange, objLookup, hot]
  · simp [typedToggleChanges, resolveChange, objLookup, hot]
  · simp [typedResetChanges, resolveChange, objLookup, hot]
  · cases ty <;> simp [typedToggleChanges, resolveChange, objLookup, hot]

/-- C5: reset submits the construction-time initial state through the same
internalSetState pipeline as any other propose; with the identity reducer
every construction-time key of the bag is restored to its initial value after
reset, and when the reducer transforms the reset every key it assigns ends at
the assigned value (in particular a key it passes through at its initial value
equals the initial snapshot). -/
theorem reset_correct (p : ToggleProps) (s : Obj) :
    resetState p s = commitState p (ChangeReq.lit (initialStateBag p)) s
    ∧ ((∀ a c, defaultedReducer p a c = some c) →
         (∀ k v, objLookup (initialStateBag p) k = some v →
            objLookup (resetState p s) k = some v)
         ∧ jsIndex (resetState p s) "on" = JsVal.bool (defaultedInitialOn p))
    ∧ (∀ r, defaultedReducer p s (initialStateBag p) = some r → r ≠ [] →
         ∀ k v, objLookup r k = some v → objLookup (resetState p s) k = some v)
  := by
  refine ⟨rfl, ?_, ?_⟩
  · intro hid
    have hu : internalSetState p (ChangeReq.lit (initialStateBag p)) s
        = some (initialStateBag p) := by
      rw [internalSetState_eq, hid]
      simp [initialStateBag, resolveChange]
    have hcs : resetState p s = objMerge s (initialStateBag p) := by
      simp [resetState, resetOp, commitState, hu]
    constructor
    · intro k v hkv
      rw [hcs]
      exact objLookup_append_some _ _ _ _ hkv
    · have hon : objLookup (initialStateBag p) "on"
          = some (JsVal.bool (defaultedInitialOn p)) := by
        simp [initialStateBag, objLookup]
      rw [hcs]
      unfold jsIndex objMerge
      rw [objLookup_append_some _ _ _ _ hon]
      rfl
  · intro r hr hne k v hkv
    have hlen : 0 < r.length := List.length_pos.mpr hne
    have hu : internalSetState p (ChangeReq.lit (initialStateBag p)) s
        = some r := by
      rw [internalSetState_eq]
      simp only [resolveChange]
      rw [hr]
      simp [hlen]
    have hcs : resetState p s = objMerge s r := by
      simp [resetState, resetOp, commitState, hu]
    rw [hcs]
    exact objLookup_append_some _ _ _ _ hkv

/-- C5 witness: with the default identity reducer, resetting a concrete bag
whose on value was toggled away from its initial value restores the
construction-time value. -/
theorem reset_correct_witness :
    objLookup (resetState {} [("on", JsVal.bool true)]) "on"
      = some (JsVal.bool false)
    ∧ jsIndex (resetState {} [("on", JsVal.bool true)]) "on"
      = JsVal.bool false :=
  ⟨((reset_correct {} [("on", JsVal.bool true)]).2.2 (initialStateBag {}) rfl
      (by simp [initialStateBag]) "on" (JsVal.bool false) (by decide)),
   ((reset_correct {} [("on", JsVal.bool true)]).2.1 (fun a c => rfl)).2⟩

/-- C3: in the control-props Toggle, when the on key is controlled the toggle
operation leaves the whole internal state bag untouched, and getState for
that key returns the externally supplied prop value unchanged both before and
after the call. -/
theorem controlled_key_untouched (p : ControlProps) (s : Obj)
    (h : isControlled p "on" = true) :
    (toggleControl p s).1 = s
    ∧ getState p s "on" = jsIndex p.stateProps "on"
    ∧ getState p (toggleControl p s).1 "on" = jsIndex p.stateProps "on" := by
  refine ⟨?_, ?_, ?_⟩
  · simp [toggleControl, h]
  · simp [getState, h]
  · simp [toggleControl, getState, h]

/-- C3 witness: with a concrete controlled on prop, toggling keeps the
internal bag and getState keeps reporting the external value. -/
theorem controlled_key_untouched_witness :
    (toggleControl { stateProps := [("on", JsVal.bool true)], onToggle := some () } [("on", JsVal.bool false)]).1
      = [("on", JsVal.bool false)]
    ∧ getState { stateProps := [("on", JsVal.bool true)], onToggle := some () }
        [("on", JsVal.bool false)] "on" = JsVal.bool true :=
  ⟨(controlled_key_untouched
      { stateProps := [("on", JsVal.bool true)], onToggle := some () }
      [("on", JsVal.bool false)] (by decide)).1,
   ((controlled_key_untouched
      { stateProps := [("on", JsVal.bool true)], onToggle := some () }
      [("on", JsVal.bool false)] (by decide)).2.1).trans (by decide)⟩

/-- C4: when the on key is controlled and its mutation is therefore rejected
from the internal bag, toggle still invokes the external onToggle callback
exactly once, with the negation of the currently resolved value; that is
exactly the value the uncontrolled commit logic would write for a bag holding
the same resolved value (the reduction step of this variant is the identity,
as exercise 10 exposes no stateReducer prop). -/
theorem controlled_notify (p : ControlProps) (s : Obj)
    (h : isControlled p "on" = true) (hh : p.onToggle = some ()) :
    (toggleControl p s).2 = Except.ok [JsVal.bool (jsNot (getState p s "on"))]
    ∧ jsIndex (toggleControl { stateProps := [], onToggle := p.onToggle }
        (objMerge s [("on", getState p s "on")])).1 "on"
      = JsVal.bool (jsNot (getState p s "on")) := by
  constructor
  · simp [toggleControl, h, invokeHandler, hh]
  · have hp2 : isControlled { stateProps := [], onToggle := p.onToggle } "on"
        = false := rfl
    simp [toggleControl, hp2, objMerge, jsIndex, objLookup]

/-- C4 witness: with a concrete controlled on of true, onToggle is invoked
once with false, the value the uncontrolled commit logic produces from a bag
resolving on to true. -/
theorem controlled_notify_witness :
    (toggleControl { stateProps := [("on", JsVal.bool true)], onToggle := some () } [("on", JsVal.bool false)]).2
      = Except.ok [JsVal.bool false]
    ∧ jsIndex (toggleControl { stateProps := [], onToggle := some () }
        (objMerge [("on", JsVal.bool false)]
          [("on", getState
              { stateProps := [("on", JsVal.bool true)], onToggle := some () }
              [("on", JsVal.bool false)] "on")])).1 "on"
      = JsVal.bool false :=
  ⟨((controlled_notify
      { stateProps := [("on", JsVal.bool true)], onToggle := some () }
      [("on", JsVal.bool false)] (by decide) rfl).1).trans rfl,
   ((controlled_notify
      { stateProps := [("on", JsVal.bool true)], onToggle := some () }
      [("on", JsVal.bool false)] (by decide) rfl).2).trans rfl⟩

/-- C10: a key is controlled exactly when the consumer-supplied prop for it
indexes to a value other than undefined, so a prop bag explicitly holding
undefined for the on key behaves exactly like one omitting the key: the key is
uncontrolled, getState reads the internal bag, and toggle behaves
identically. -/
theorem undefined_prop_uncontrolled (rest : Obj) (s : Obj) (ot : Option Unit)
    (h : objLookup rest "on" = none) :
    isControlled { stateProps := ("on", JsVal.undef) :: rest, onToggle := ot }
        "on" = false
    ∧ isControlled { stateProps := rest, onToggle := ot } "on" = false
    ∧ getState { stateProps := ("on", JsVal.undef) :: rest, onToggle := ot }
        s "on" = jsIndex s "on"
    ∧ getState { stateProps := rest, onToggle := ot } s "on" = jsIndex s "on"
    ∧ toggleControl { stateProps := ("on", JsVal.undef) :: rest, onToggle := ot }
        s
      = toggleControl { stateProps := rest, onToggle := ot } s := by
  have h1 : isControlled
      { stateProps := ("on", JsVal.undef) :: rest, onToggle := ot } "on"
      = false := by
    simp [isControlled, jsIndex, objLookup]
  have h2 : isControlled { stateProps := rest, onToggle := ot } "on" = false := by
    simp [isControlled, jsIndex, h]
  refine ⟨h1, h2, ?_, ?_, ?_⟩
  · simp [getState, h1]
  · simp [getState, h2]
  · simp [toggleControl, getState, h1, h2]

/-- C10 witness: at a concrete bag, a prop object explicitly mapping on to
undefined and the empty prop object give identical toggle results. -/
theorem undefined_prop_uncontrolled_witness :
    toggleControl { stateProps := [("on", JsVal.undef)], onToggle := some () }
        [("on", JsVal.bool true)]
      = toggleControl { stateProps := [], onToggle := some () }
        [("on", JsVal.bool true)] :=
  (undefined_prop_uncontrolled [] [("on", JsVal.bool true)] (some ())
    rfl).2.2.2.2

/-- C9 counterexample: invoking toggle with the onToggle handler omitted does
not complete as a no-op; the settle callback calls an undefined props slot and
crashes, because defaultProps supply no default for onToggle. -/
theorem toggle_missing_onToggle_crashes :
    (toggleOp {} [("on", JsVal.bool false)]).2 = Except.error jsTypeError := rfl

/-- C9 amended: the on-reset slot is covered by a defaultProps no-op, so reset
completes normally when the consumer omits the handler; the on-toggle slot has
no default, so toggle completes only when the consumer supplies the handler
and crashes at the settle callback when it is omitted. -/
theorem lifecycle_handler_defaults (p : ToggleProps) (s : Obj) :
    (p.onReset = none → (resetOp p s).2 = Except.ok [])
    ∧ (p.onReset = some () → (resetOp p s).2
        = Except.ok [jsIndex (resetState p s) "on"])
    ∧ (p.onToggle = none → (toggleOp p s).2 = Except.error jsTypeError)
    ∧ (p.onToggle = some () → (toggleOp p s).2
        = Except.ok [jsIndex (commitState p toggleChanges s) "on"]) := by
  refine ⟨?_, ?_, ?_, ?_⟩ <;> intro h <;>
    simp [resetOp, toggleOp, resetNotifications, invokeHandler, h,
      resetState]

/-- C9 amended witness: with every handler omitted, a concrete reset completes
normally while a concrete toggle crashes; with onToggle supplied, toggle
completes and reports the post-commit value. -/
theorem lifecycle_handler_defaults_witness :
    (resetOp {} [("on", JsVal.bool true)]).2 = Except.ok []
    ∧ (toggleOp {} [("on", JsVal.bool true)]).2 = Except.error jsTypeError
    ∧ (toggleOp { onToggle := some () } [("on", JsVal.bool true)]).2
        = Except.ok [jsIndex (commitState { onToggle := some () } toggleChanges
            [("on", JsVal.bool true)]) "on"] :=
  ⟨(lifecycle_handler_defaults {} [("on", JsVal.bool true)]).1 rfl,
   (lifecycle_handler_defaults {} [("on", JsVal.bool true)]).2.2.1 rfl,
   (lifecycle_handler_defaults { onToggle := some () }
      [("on", JsVal.bool true)]).2.2.2 rfl⟩
